import Mathlib

/-!
Verification of the Quote Calculation Engine of the shipment quote
calculator repository.

The backend services are embedded shallowly over `ℚ`:

* `calculateQuoteAmount` (src/backend/src/services/quoteCalculator.js,
  lines 47-87) — the pure pricing function;
* `geocodeLocation` (src/backend/src/services/geocoding.js) — the
  location resolver, parameterised by the external geocoding provider,
  modelled as a function from the query string to either a thrown error
  or a list of results;
* `calculateDistance` with its driving / great-circle strategy
  (quoteCalculator.js, distance-resolver part) — parameterised by the
  routing provider (OSRM) and the PostGIS backend, each modelled as a
  function from the four coordinates to a thrown error or a list of
  numeric rows.

JavaScript numbers are modelled as rationals; `Math.round(x*100)/100`
and `Number.toFixed(2)` (on the non-negative values that arise here)
are modelled by `round2`, rounding half up to two decimals; `Math.ceil`
is `Int.ceil`.
-/

namespace QuoteEngine

/-- `Math.round(q * 100) / 100`: rounding to 2 decimal places, half up. -/
def round2 (q : ℚ) : ℚ := (⌊q * 100 + 1 / 2⌋ : ℚ) / 100

/-- The km→miles conversion constant 0.621371 used throughout the code. -/
def MILES_PER_KM : ℚ := 621371 / 1000000

/-- Default base rate per mile (quoteCalculator.js line 49, env default 2.00). -/
def baseRatePerMile : ℚ := 2

/-- Default minimum quote (quoteCalculator.js line 66, env default 100.00). -/
def minimumQuote : ℚ := 100

/-- Weight threshold in pounds (quoteCalculator.js line 62). -/
def WEIGHT_THRESHOLD : ℚ := 10000

/-- Surcharge per started 100 lb over the threshold (quoteCalculator.js line 63). -/
def WEIGHT_FACTOR_RATE : ℚ := 1 / 10

/-- The equipment multiplier table of quoteCalculator.js lines 52-59.
`none` models a key absent from the JS object literal. -/
def equipmentMultipliers (e : String) : Option ℚ :=
  if e = "dry_van" then some 1
  else if e = "reefer" then some (12 / 10)
  else if e = "flatbed" then some (115 / 100)
  else if e = "step_deck" then some (12 / 10)
  else if e = "hotshot" then some (85 / 100)
  else if e = "straight_truck" then some (95 / 100)
  else none

/-- The weight surcharge of quoteCalculator.js lines 76-80: added only when
`totalWeight > WEIGHT_THRESHOLD`, as `Math.ceil(excess / 100) * 0.10`. -/
def weightSurcharge (totalWeight : ℚ) : ℚ :=
  if totalWeight > WEIGHT_THRESHOLD then
    (⌈(totalWeight - WEIGHT_THRESHOLD) / 100⌉ : ℚ) * WEIGHT_FACTOR_RATE
  else 0

/-- quoteCalculator.js lines 47-87: base amount from distance, equipment
multiplier (`equipmentMultipliers[equipmentType] || 1.0`), weight
surcharge, minimum-quote floor, then rounding to 2 decimals.  The JS
default parameter `totalWeight = 0` is modelled by the Lean default
argument. -/
def calculateQuoteAmount (distanceMiles : ℚ) (equipmentType : String)
    (totalWeight : ℚ := 0) : ℚ :=
  let quoteBase := distanceMiles * baseRatePerMile
  let multiplier := (equipmentMultipliers equipmentType).getD 1
  let withEquipment := quoteBase * multiplier
  let withWeight := withEquipment + weightSurcharge totalWeight
  round2 (max withWeight minimumQuote)

/-- The pricing function written as one expression: base amount, equipment
multiplier, weight surcharge, floor, rounding. -/
theorem calculateQuoteAmount_eq (d : ℚ) (e : String) (w : ℚ) :
    calculateQuoteAmount d e w =
      round2 (max (d * baseRatePerMile * (equipmentMultipliers e).getD 1 +
        weightSurcharge w) minimumQuote) := rfl

theorem floor_eval (q : ℚ) (z : ℤ) (h1 : (z : ℚ) ≤ q) (h2 : q < z + 1) :
    ⌊q⌋ = z := Int.floor_eq_iff.mpr ⟨h1, h2⟩

theorem ceil_eval (q : ℚ) (z : ℤ) (h1 : (z : ℚ) - 1 < q) (h2 : q ≤ z) :
    ⌈q⌉ = z := Int.ceil_eq_iff.mpr ⟨h1, h2⟩

theorem round2_eq (q : ℚ) (z : ℤ) (h1 : (z : ℚ) ≤ q * 100 + 1 / 2)
    (h2 : q * 100 + 1 / 2 < z + 1) : round2 q = z / 100 := by
  unfold round2
  rw [floor_eval (q * 100 + 1 / 2) z h1 h2]

theorem round2_mono {x y : ℚ} (h : x ≤ y) : round2 x ≤ round2 y := by
  unfold round2
  have hf : (⌊x * 100 + 1 / 2⌋ : ℤ) ≤ ⌊y * 100 + 1 / 2⌋ :=
    Int.floor_le_floor (by linarith)
  have hq : ((⌊x * 100 + 1 / 2⌋ : ℤ) : ℚ) ≤ ((⌊y * 100 + 1 / 2⌋ : ℤ) : ℚ) :=
    Int.cast_le.mpr hf
  linarith

theorem round2_minimumQuote : round2 minimumQuote = minimumQuote := by
  have h := round2_eq minimumQuote 10000 (by norm_num [minimumQuote])
    (by norm_num [minimumQuote])
  rw [h]
  norm_num [minimumQuote]

theorem equipmentMultipliers_dry_van :
    equipmentMultipliers "dry_van" = some 1 := rfl

theorem equipmentMultipliers_reefer :
    equipmentMultipliers "reefer" = some (12 / 10) := rfl

theorem equipmentMultipliers_flatbed :
    equipmentMultipliers "flatbed" = some (115 / 100) := rfl

theorem equipmentMultipliers_step_deck :
    equipmentMultipliers "step_deck" = some (12 / 10) := rfl

theorem equipmentMultipliers_hotshot :
    equipmentMultipliers "hotshot" = some (85 / 100) := rfl

theorem equipmentMultipliers_straight_truck :
    equipmentMultipliers "straight_truck" = some (95 / 100) := rfl

theorem equipmentMultipliers_getD_pos (e : String) :
    0 < (equipmentMultipliers e).getD 1 := by
  unfold equipmentMultipliers
  split_ifs <;> norm_num

theorem weightSurcharge_of_le {w : ℚ} (h : w ≤ WEIGHT_THRESHOLD) :
    weightSurcharge w = 0 := by
  unfold weightSurcharge
  exact if_neg (not_lt.mpr h)

theorem weightSurcharge_nonneg (w : ℚ) : 0 ≤ weightSurcharge w := by
  unfold weightSurcharge
  split_ifs with h
  · have hc : (0 : ℤ) < ⌈(w - WEIGHT_THRESHOLD) / 100⌉ := by
      rw [Int.ceil_pos]
      have : 0 < w - WEIGHT_THRESHOLD := by linarith [h]
      positivity
    have hcq : (0 : ℚ) < (⌈(w - WEIGHT_THRESHOLD) / 100⌉ : ℚ) :=
      Int.cast_pos.mpr hc
    have : (0 : ℚ) < WEIGHT_FACTOR_RATE := by norm_num [WEIGHT_FACTOR_RATE]
    positivity
  · exact le_refl 0

theorem weightSurcharge_mono {w1 w2 : ℚ} (h : w1 ≤ w2) :
    weightSurcharge w1 ≤ weightSurcharge w2 := by
  unfold weightSurcharge
  split_ifs with h1 h2
  · have hc : (⌈(w1 - WEIGHT_THRESHOLD) / 100⌉ : ℤ) ≤
        ⌈(w2 - WEIGHT_THRESHOLD) / 100⌉ := Int.ceil_mono (by linarith)
    have hcq : ((⌈(w1 - WEIGHT_THRESHOLD) / 100⌉ : ℤ) : ℚ) ≤
        ((⌈(w2 - WEIGHT_THRESHOLD) / 100⌉ : ℤ) : ℚ) := Int.cast_le.mpr hc
    have : (0 : ℚ) ≤ WEIGHT_FACTOR_RATE := by norm_num [WEIGHT_FACTOR_RATE]
    exact mul_le_mul_of_nonneg_right hcq this
  · exact absurd (lt_of_lt_of_le h1 h) h2
  · have hc : (0 : ℤ) < ⌈(w2 - WEIGHT_THRESHOLD) / 100⌉ := by
      rw [Int.ceil_pos]
      have : 0 < w2 - WEIGHT_THRESHOLD := by linarith
      positivity
    have hcq : (0 : ℚ) ≤ (⌈(w2 - WEIGHT_THRESHOLD) / 100⌉ : ℚ) :=
      le_of_lt (Int.cast_pos.mpr hc)
    have hr : (0 : ℚ) ≤ WEIGHT_FACTOR_RATE := by norm_num [WEIGHT_FACTOR_RATE]
    positivity
  · exact le_refl 0

/-- Claim C1 (counterexample): calling `calculateQuoteAmount` with the unknown
equipment type "spaceship" does not fail; the `|| 1.0` default multiplier is
applied silently and the computed amount 200 is returned, even though
"spaceship" is absent from the multiplier table. -/
theorem claim1_counterexample :
    equipmentMultipliers "spaceship" = none ∧
    calculateQuoteAmount 100 "spaceship" = 200 := by
  refine ⟨rfl, ?_⟩
  rw [calculateQuoteAmount_eq]
  rw [show equipmentMultipliers "spaceship" = none from rfl]
  rw [weightSurcharge_of_le (by norm_num [WEIGHT_THRESHOLD])]
  norm_num [Option.getD_none, baseRatePerMile, minimumQuote, max_def, round2]

/-- Claim C1 (amended): `calculateQuoteAmount` never rejects an equipment
type; any type outside the multiplier table is silently priced with the
default multiplier 1.0, producing exactly the dry_van amount.  (Unknown
equipment types are rejected only by the HTTP validation middleware, not by
the pricing function.) -/
theorem claim1_unknown_equipment_defaults (d : ℚ) (e : String) (w : ℚ)
    (h : equipmentMultipliers e = none) :
    calculateQuoteAmount d e w = calculateQuoteAmount d "dry_van" w := by
  rw [calculateQuoteAmount_eq, calculateQuoteAmount_eq, h,
    equipmentMultipliers_dry_van]
  simp [Option.getD_none, Option.getD_some]

/-- Witness for C1's amended theorem at the concrete type "container". -/
theorem claim1_unknown_equipment_defaults_witness :
    calculateQuoteAmount 7 "container" 5 = calculateQuoteAmount 7 "dry_van" 5 :=
  claim1_unknown_equipment_defaults 7 "container" 5 rfl

/-- Claim C5: in `calculateQuoteAmount` (threshold 10000, per-increment rate
0.10) the weight surcharge added before the floor is 0 at totalWeight 10000,
one increment (0.10) at 10001, three increments (0.30) at 10250; in general
it is `ceil((totalWeight - threshold) / 100) * 0.10` whenever the weight
exceeds the threshold and 0 otherwise, and the returned amount is the
rounded, floored sum of the equipment-adjusted base amount and this
surcharge. -/
theorem claim5_weight_surcharge_ceiling :
    weightSurcharge 10000 = 0 ∧
    weightSurcharge 10001 = 1 / 10 ∧
    weightSurcharge 10250 = 3 / 10 ∧
    (∀ w : ℚ, WEIGHT_THRESHOLD < w →
        weightSurcharge w = (⌈(w - WEIGHT_THRESHOLD) / 100⌉ : ℚ) * (1 / 10)) ∧
    (∀ w : ℚ, w ≤ WEIGHT_THRESHOLD → weightSurcharge w = 0) ∧
    (∀ (d : ℚ) (e : String) (w : ℚ),
        calculateQuoteAmount d e w =
          round2 (max (d * baseRatePerMile * (equipmentMultipliers e).getD 1 +
            weightSurcharge w) minimumQuote)) := by
  refine ⟨?_, ?_, ?_, ?_, ?_, ?_⟩
  · exact weightSurcharge_of_le (by norm_num [WEIGHT_THRESHOLD])
  · unfold weightSurcharge
    rw [if_pos (by norm_num [WEIGHT_THRESHOLD])]
    rw [show ((10001 : ℚ) - WEIGHT_THRESHOLD) / 100 = 1 / 100 by
      norm_num [WEIGHT_THRESHOLD]]
    rw [ceil_eval (1 / 100) 1 (by norm_num) (by norm_num)]
    norm_num [WEIGHT_FACTOR_RATE]
  · unfold weightSurcharge
    rw [if_pos (by norm_num [WEIGHT_THRESHOLD])]
    rw [show ((10250 : ℚ) - WEIGHT_THRESHOLD) / 100 = 5 / 2 by
      norm_num [WEIGHT_THRESHOLD]]
    rw [ceil_eval (5 / 2) 3 (by norm_num) (by norm_num)]
    norm_num [WEIGHT_FACTOR_RATE]
  · intro w hw
    unfold weightSurcharge
    rw [if_pos hw]
    norm_num [WEIGHT_FACTOR_RATE]
  · intro w hw
    exact weightSurcharge_of_le hw
  · intro d e w
    exact calculateQuoteAmount_eq d e w

/-- Witness for C5 discharging its hypotheses at concrete weights. -/
theorem claim5_weight_surcharge_ceiling_witness :
    weightSurcharge 10150 = (⌈((10150 : ℚ) - WEIGHT_THRESHOLD) / 100⌉ : ℚ) * (1 / 10) ∧
    weightSurcharge 9000 = 0 ∧
    calculateQuoteAmount 100 "reefer" 10250 =
      round2 (max (100 * baseRatePerMile * (equipmentMultipliers "reefer").getD 1 +
        weightSurcharge 10250) minimumQuote) :=
  ⟨claim5_weight_surcharge_ceiling.2.2.2.1 10150 (by norm_num [WEIGHT_THRESHOLD]),
   claim5_weight_surcharge_ceiling.2.2.2.2.1 9000 (by norm_num [WEIGHT_THRESHOLD]),
   claim5_weight_surcharge_ceiling.2.2.2.2.2 100 "reefer" 10250⟩

/-- Claim C6: with no weight given, each of the six equipment types prices at
`round2 (max (distance * 2.00 * multiplier) 100.00)` with multipliers
dry_van 1.00, reefer 1.20, flatbed 1.15, step_deck 1.20, hotshot 0.85,
straight_truck 0.95. -/
theorem claim6_equipment_multiplier_pricing (d : ℚ) (_hd : 0 ≤ d) :
    calculateQuoteAmount d "dry_van" = round2 (max (d * 2 * 1) 100) ∧
    calculateQuoteAmount d "reefer" = round2 (max (d * 2 * (12 / 10)) 100) ∧
    calculateQuoteAmount d "flatbed" = round2 (max (d * 2 * (115 / 100)) 100) ∧
    calculateQuoteAmount d "step_deck" = round2 (max (d * 2 * (12 / 10)) 100) ∧
    calculateQuoteAmount d "hotshot" = round2 (max (d * 2 * (85 / 100)) 100) ∧
    calculateQuoteAmount d "straight_truck" =
      round2 (max (d * 2 * (95 / 100)) 100) := by
  refine ⟨?_, ?_, ?_, ?_, ?_, ?_⟩ <;>
    rw [calculateQuoteAmount_eq] <;>
    simp only [equipmentMultipliers_dry_van, equipmentMultipliers_reefer,
      equipmentMultipliers_flatbed, equipmentMultipliers_step_deck,
      equipmentMultipliers_hotshot, equipmentMultipliers_straight_truck,
      Option.getD_some, weightSurcharge_of_le
        (by norm_num [WEIGHT_THRESHOLD] : (0 : ℚ) ≤ WEIGHT_THRESHOLD),
      add_zero, baseRatePerMile, minimumQuote]

/-- Witness for C6 at distance 500: the reefer amount is 1200.00. -/
theorem claim6_equipment_multiplier_pricing_witness :
    calculateQuoteAmount 500 "reefer" = 1200 := by
  have h := (claim6_equipment_multiplier_pricing 500 (by norm_num)).2.1
  rw [h]
  rw [show max ((500 : ℚ) * 2 * (12 / 10)) 100 = 1200 by norm_num [max_def]]
  rw [round2_eq 1200 120000 (by norm_num) (by norm_num)]
  norm_num

/-- Claim C7: the minimum-quote floor is applied after the multiplier and the
weight surcharge, so for every distance, equipment type, and weight the
returned amount is at least `minimumQuote` (100.00); a sub-1.0 multiplier on
a short distance cannot undercut the floor. -/
theorem claim7_minimum_quote_floor (d : ℚ) (e : String) (w : ℚ)
    (_hd : 0 ≤ d) : minimumQuote ≤ calculateQuoteAmount d e w := by
  rw [calculateQuoteAmount_eq]
  calc minimumQuote = round2 minimumQuote := round2_minimumQuote.symm
    _ ≤ round2 (max (d * baseRatePerMile * (equipmentMultipliers e).getD 1 +
          weightSurcharge w) minimumQuote) := round2_mono (le_max_right _ _)

/-- Witness for C7 on hotshot's 0.85 multiplier at distance 1. -/
theorem claim7_minimum_quote_floor_witness :
    minimumQuote ≤ calculateQuoteAmount 1 "hotshot" 0 :=
  claim7_minimum_quote_floor 1 "hotshot" 0 (by norm_num)

/-- Claim C9: `calculateQuoteAmount` is monotone non-decreasing separately in
the distance (for fixed equipment and weight) and in the weight (for fixed
equipment and distance). -/
theorem claim9_quote_amount_monotone :
    (∀ (e : String) (w d1 d2 : ℚ), d1 ≤ d2 →
        calculateQuoteAmount d1 e w ≤ calculateQuoteAmount d2 e w) ∧
    (∀ (e : String) (d w1 w2 : ℚ), w1 ≤ w2 →
        calculateQuoteAmount d e w1 ≤ calculateQuoteAmount d e w2) := by
  constructor
  · intro e w d1 d2 h
    rw [calculateQuoteAmount_eq, calculateQuoteAmount_eq]
    apply round2_mono
    apply max_le_max _ le_rfl
    have hm := (equipmentMultipliers_getD_pos e).le
    have hb : d1 * baseRatePerMile ≤ d2 * baseRatePerMile :=
      mul_le_mul_of_nonneg_right h (by norm_num [baseRatePerMile])
    exact add_le_add (mul_le_mul_of_nonneg_right hb hm) le_rfl
  · intro e d w1 w2 h
    rw [calculateQuoteAmount_eq, calculateQuoteAmount_eq]
    exact round2_mono (max_le_max (add_le_add le_rfl (weightSurcharge_mono h))
      le_rfl)

/-- Witness for C9 at concrete distances and weights. -/
theorem claim9_quote_amount_monotone_witness :
    calculateQuoteAmount 100 "flatbed" 0 ≤ calculateQuoteAmount 250 "flatbed" 0 ∧
    calculateQuoteAmount 100 "flatbed" 9000 ≤
      calculateQuoteAmount 100 "flatbed" 12000 :=
  ⟨claim9_quote_amount_monotone.1 "flatbed" 0 100 250 (by norm_num),
   claim9_quote_amount_monotone.2 "flatbed" 100 9000 12000 (by norm_num)⟩

/-- Claim C10: any weight at or below the 10000-lb threshold — zero, negative,
or the argument left to its default — yields the same amount as weight 0; no
surcharge is added and negative weights are not rejected. -/
theorem claim10_no_surcharge_at_or_below_threshold :
    (∀ (d : ℚ) (e : String) (w : ℚ), w ≤ WEIGHT_THRESHOLD →
        calculateQuoteAmount d e w = calculateQuoteAmount d e 0) ∧
    (∀ (d : ℚ) (e : String),
        calculateQuoteAmount d e = calculateQuoteAmount d e 0) := by
  constructor
  · intro d e w h
    rw [calculateQuoteAmount_eq, calculateQuoteAmount_eq,
      weightSurcharge_of_le h,
      weightSurcharge_of_le (by norm_num [WEIGHT_THRESHOLD])]
  · intro d e
    rfl

/-- Witness for C10 at a negative weight. -/
theorem claim10_no_surcharge_witness :
    calculateQuoteAmount 300 "dry_van" (-5) = calculateQuoteAmount 300 "dry_van" 0 :=
  claim10_no_surcharge_at_or_below_threshold.1 300 "dry_van" (-5)
    (by norm_num [WEIGHT_THRESHOLD])

/-- A single raw result row of the Nominatim provider (geocoding.js),
with `lat`/`lon` already parsed to numbers as `parseFloat` does. -/
structure GeoResult where
  lat : ℚ
  lon : ℚ
  display_name : String
deriving DecidableEq

/-- The location object destructured at geocoding.js line 63.  `none` (or an
empty string, via `truthy`) models a missing / falsy field. -/
structure GeoLocation where
  city : Option String
  postal_code : Option String
  state_province : Option String
  country : Option String

/-- The accuracy tag computed at geocoding.js line 137. -/
inductive GeoAccuracy where
  | postal_code
  | city_state
  | city_only
deriving DecidableEq

/-- The value returned by a successful `geocodeLocation` call
(geocoding.js lines 139-144). -/
structure ResolvedPoint where
  latitude : ℚ
  longitude : ℚ
  accuracy : GeoAccuracy
  display_name : String
deriving DecidableEq

/-- The distinct failure classes a `geocodeLocation` call can surface
(geocoding.js lines 65-67 and 145-153): the missing-city/country guard, a
provider request that threw (wrapped at line 147 or 152), an empty result
list (line 120), and the re-thrown North-America bounds error (line 129). -/
inductive GeoError where
  | invalidInput
  | apiError (msg : String)
  | geocodingFailed (q : String)
  | outOfRegion
deriving DecidableEq

/-- JavaScript truthiness of the optional string fields: `undefined`/`null`
and the empty string are falsy. -/
def truthy : Option String → Bool
  | some s => !s.isEmpty
  | none => false

/-- The country-code-to-name mapping of geocoding.js lines 33-38. -/
def countryName (c : String) : String :=
  if c = "US" then "United States"
  else if c = "CA" then "Canada"
  else if c = "MX" then "Mexico"
  else c

/-- `buildGeocodingQuery` of geocoding.js lines 13-42: pushes postal code,
city, state/province, then country name, and joins with ", ". -/
def buildGeocodingQuery (city stateProvince postalCode country : Option String) :
    String :=
  let parts : List String := []
  let parts := if truthy postalCode then parts ++ [postalCode.getD ""] else parts
  let parts := if truthy city then parts ++ [city.getD ""] else parts
  let parts := if truthy stateProvince then parts ++ [stateProvince.getD ""]
    else parts
  let parts := if truthy country then parts ++ [countryName (country.getD "")]
    else parts
  String.intercalate ", " parts

/-- `validateNorthAmericaBounds` of geocoding.js lines 47-55. -/
def validateNorthAmericaBounds (lat lon : ℚ) : Bool :=
  decide (7 ≤ lat) && decide (lat ≤ 83) &&
    decide (-180 ≤ lon) && decide (lon ≤ -50)

/-- The provider interaction of geocoding.js lines 72-117: when a (truthy)
postal code is present, query with it and, if the request throws, retry once
with the postal code dropped; otherwise query once.  The provider models
`axios.get` on Nominatim: `.error` is a thrown request, `.ok` the parsed
JSON array. -/
def geocodeResponse (provider : String → Except String (List GeoResult))
    (loc : GeoLocation) : Except String (List GeoResult) :=
  let q := buildGeocodingQuery loc.city loc.state_province loc.postal_code
    loc.country
  if truthy loc.postal_code then
    match provider q with
    | Except.ok data => Except.ok data
    | Except.error _ =>
        provider (buildGeocodingQuery loc.city loc.state_province none
          loc.country)
  else provider q

/-- `geocodeLocation` of geocoding.js lines 62-154: required-field guard,
provider query with the postal-code-drop retry, empty-result check, bounds
check, then the accuracy tag `postal_code ? 'postal_code' :
(state_province ? 'city_state' : 'city_only')` of line 137. -/
def geocodeLocation (provider : String → Except String (List GeoResult))
    (loc : GeoLocation) : Except GeoError ResolvedPoint :=
  if !truthy loc.city || !truthy loc.country then Except.error GeoError.invalidInput
  else
    match geocodeResponse provider loc with
    | Except.error e => Except.error (GeoError.apiError e)
    | Except.ok [] => Except.error (GeoError.geocodingFailed
        (buildGeocodingQuery loc.city loc.state_province loc.postal_code
          loc.country))
    | Except.ok (r :: _) =>
        if validateNorthAmericaBounds r.lat r.lon then
          Except.ok
            { latitude := r.lat
              longitude := r.lon
              accuracy :=
                if truthy loc.postal_code then GeoAccuracy.postal_code
                else if truthy loc.state_province then GeoAccuracy.city_state
                else GeoAccuracy.city_only
              display_name := r.display_name }
        else Except.error GeoError.outOfRegion

/-- A Toronto descriptor whose postal code the provider rejects. -/
def torontoLoc : GeoLocation :=
  { city := some "Toronto"
    postal_code := some "M9X 9X9"
    state_province := some "ON"
    country := some "CA" }

/-- A provider that fails the postal-code query and succeeds on the
city+state+country retry with in-bounds Toronto coordinates. -/
def torontoProvider : String → Except String (List GeoResult) := fun q =>
  if q = "Toronto, ON, Canada" then
    Except.ok [{ lat := 43, lon := -79, display_name := "Toronto, Ontario, Canada" }]
  else Except.error "Request failed with status code 400"

/-- The point `geocodeLocation` produces for `torontoLoc` under
`torontoProvider`. -/
def torontoPoint : ResolvedPoint :=
  { latitude := 43
    longitude := -79
    accuracy := GeoAccuracy.postal_code
    display_name := "Toronto, Ontario, Canada" }

/-- An out-of-bounds provider result (a city-name collision outside North
America). -/
def sydneyResult : GeoResult :=
  { lat := -33
    lon := 151
    display_name := "Sydney, New South Wales, Australia" }

/-- A provider that always succeeds, returning the out-of-bounds result. -/
def sydneyProvider : String → Except String (List GeoResult) := fun _ =>
  Except.ok [sydneyResult]

/-- Claim C2 (counterexample): with a postal code the provider rejects and a
retry that succeeds with in-bounds Toronto coordinates, `geocodeLocation`
succeeds but tags the result `postal_code`, not `city_state`: the accuracy
tag at geocoding.js line 137 only tests presence of the input postal code,
not which query succeeded. -/
theorem claim2_counterexample :
    geocodeLocation torontoProvider torontoLoc = Except.ok torontoPoint ∧
    torontoPoint.accuracy = GeoAccuracy.postal_code ∧
    GeoAccuracy.postal_code ≠ GeoAccuracy.city_state := by
  refine ⟨rfl, rfl, ?_⟩
  intro h
  exact GeoAccuracy.noConfusion h

/-- Claim C2 (amended): when the postal-code query fails and the retry
without the postal code succeeds with in-bounds coordinates,
`geocodeLocation` succeeds — but the returned accuracy tag is `postal_code`
(reflecting that a postal code was present in the input), not `city_state`. -/
theorem claim2_retry_tags_postal_code
    (provider : String → Except String (List GeoResult)) (loc : GeoLocation)
    (e : String) (r : GeoResult) (rest : List GeoResult)
    (hcity : truthy loc.city = true) (hcountry : truthy loc.country = true)
    (hpostal : truthy loc.postal_code = true)
    (hfail : provider (buildGeocodingQuery loc.city loc.state_province
      loc.postal_code loc.country) = Except.error e)
    (hretry : provider (buildGeocodingQuery loc.city loc.state_province none
      loc.country) = Except.ok (r :: rest))
    (hbounds : validateNorthAmericaBounds r.lat r.lon = true) :
    geocodeLocation provider loc =
      Except.ok
        { latitude := r.lat
          longitude := r.lon
          accuracy := GeoAccuracy.postal_code
          display_name := r.display_name } := by
  unfold geocodeLocation geocodeResponse
  rw [hcity, hcountry, hpostal]
  simp [hfail, hretry, hbounds]

/-- Witness for C2's amended theorem at the concrete Toronto scenario. -/
theorem claim2_retry_tags_postal_code_witness :
    geocodeLocation torontoProvider torontoLoc =
      Except.ok
        { latitude := 43
          longitude := -79
          accuracy := GeoAccuracy.postal_code
          display_name := "Toronto, Ontario, Canada" } :=
  claim2_retry_tags_postal_code torontoProvider torontoLoc
    "Request failed with status code 400"
    { lat := 43, lon := -79, display_name := "Toronto, Ontario, Canada" } []
    rfl rfl rfl rfl rfl rfl

/-- Claim C8: every successful `geocodeLocation` result lies inside the
North-America bounding box (latitude in [7, 83], longitude in [-180, -50]);
and when the provider succeeds but its first result is out of bounds, the
call fails with the out-of-region error (the re-thrown bounds error of
geocoding.js lines 128-134). -/
theorem claim8_north_america_bounds :
    (∀ (provider : String → Except String (List GeoResult)) (loc : GeoLocation)
        (pt : ResolvedPoint), geocodeLocation provider loc = Except.ok pt →
        7 ≤ pt.latitude ∧ pt.latitude ≤ 83 ∧
          -180 ≤ pt.longitude ∧ pt.longitude ≤ -50) ∧
    (∀ (provider : String → Except String (List GeoResult)) (loc : GeoLocation)
        (r : GeoResult) (rest : List GeoResult),
        truthy loc.city = true → truthy loc.country = true →
        (∀ q : String, provider q = Except.ok (r :: rest)) →
        validateNorthAmericaBounds r.lat r.lon = false →
        geocodeLocation provider loc = Except.error GeoError.outOfRegion) := by
  constructor
  · intro provider loc pt h
    unfold geocodeLocation at h
    split at h
    · exact absurd h (by simp)
    · split at h
      · exact absurd h (by simp)
      · exact absurd h (by simp)
      · rename_i r rest
        split at h
        · rename_i hb
          rw [Except.ok.injEq] at h
          subst h
          simp only [validateNorthAmericaBounds, Bool.and_eq_true,
            decide_eq_true_eq] at hb
          exact ⟨hb.1.1.1, hb.1.1.2, hb.1.2, hb.2⟩
        · exact absurd h (by simp)
  · intro provider loc r rest hcity hcountry hall hb
    unfold geocodeLocation geocodeResponse
    rw [hcity, hcountry]
    cases hp : truthy loc.postal_code <;>
      simp [hall, hb]

/-- Witness for C8: the in-bounds Toronto success and the rejected Sydney
result. -/
theorem claim8_north_america_bounds_witness :
    (7 ≤ torontoPoint.latitude ∧ torontoPoint.latitude ≤ 83 ∧
      -180 ≤ torontoPoint.longitude ∧ torontoPoint.longitude ≤ -50) ∧
    geocodeLocation sydneyProvider torontoLoc =
      Except.error GeoError.outOfRegion :=
  ⟨claim8_north_america_bounds.1 torontoProvider torontoLoc torontoPoint rfl,
   claim8_north_america_bounds.2 sydneyProvider torontoLoc sydneyResult []
     rfl rfl (fun _ => rfl) rfl⟩

/-- The `{ distance_km, distance_miles }` object returned by the distance
resolver (quoteCalculator.js, distance part). -/
structure DistanceResult where
  distance_km : ℚ
  distance_miles : ℚ
deriving DecidableEq

/-- `calculateDrivingDistance`: the OSRM call, modelled as a provider from
the four coordinates to a thrown error or the list of route distances in
meters (`response.data.routes[i].distance`).  An empty route list throws
"No route found"; a successful route is converted to km and miles and each
is passed through `toFixed(2)` (modelled by `round2`). -/
def calculateDrivingDistance
    (osrm : ℚ → ℚ → ℚ → ℚ → Except String (List ℚ))
    (originLat originLon destLat destLon : ℚ) : Except String DistanceResult :=
  match osrm originLat originLon destLat destLon with
  | Except.error e => Except.error e
  | Except.ok [] => Except.error "No route found in API response"
  | Except.ok (distanceMeters :: _) =>
      let distanceKm := distanceMeters / 1000
      let distanceMiles := distanceKm * MILES_PER_KM
      Except.ok
        { distance_km := round2 distanceKm
          distance_miles := round2 distanceMiles }

/-- `calculateGreatCircleDistance`: the PostGIS query, modelled as a provider
from the four coordinates to a thrown error or the list of `ST_Distance`
values in meters; the SQL computes `distance_km = d / 1000` and
`distance_miles = (d / 1000) * 0.621371` from the same value, with no
rounding.  An empty row set or a query error is wrapped as
"Failed to calculate distance". -/
def calculateGreatCircleDistance
    (pg : ℚ → ℚ → ℚ → ℚ → Except String (List ℚ))
    (originLat originLon destLat destLon : ℚ) : Except String DistanceResult :=
  match pg originLat originLon destLat destLon with
  | Except.error e => Except.error ("Failed to calculate distance: " ++ e)
  | Except.ok [] =>
      Except.error "Failed to calculate distance: Distance calculation failed"
  | Except.ok (stDistance :: _) =>
      Except.ok
        { distance_km := stDistance / 1000
          distance_miles := stDistance / 1000 * MILES_PER_KM }

/-- `calculateDistance` (distance resolver): try the driving route first and
fall back to the great-circle computation when it throws. -/
def calculateDistance
    (osrm pg : ℚ → ℚ → ℚ → ℚ → Except String (List ℚ))
    (originLat originLon destLat destLon : ℚ) : Except String DistanceResult :=
  match calculateDrivingDistance osrm originLat originLon destLat destLon with
  | Except.ok drivingDistance => Except.ok drivingDistance
  | Except.error _ =>
      calculateGreatCircleDistance pg originLat originLon destLat destLon

/-- A routing provider returning a 1000 m route. -/
def osrmOneKm : ℚ → ℚ → ℚ → ℚ → Except String (List ℚ) := fun _ _ _ _ =>
  Except.ok [1000]

/-- A routing provider returning a 10000 km route. -/
def osrmRouteOk : ℚ → ℚ → ℚ → ℚ → Except String (List ℚ) := fun _ _ _ _ =>
  Except.ok [10000000]

/-- A routing provider that times out. -/
def osrmTimeout : ℚ → ℚ → ℚ → ℚ → Except String (List ℚ) := fun _ _ _ _ =>
  Except.error "timeout of 5000ms exceeded"

/-- A PostGIS backend whose connection fails. -/
def pgDown : ℚ → ℚ → ℚ → ℚ → Except String (List ℚ) := fun _ _ _ _ =>
  Except.error "connection refused"

/-- A PostGIS backend measuring 10000 km between the points. -/
def pgTenThousandKm : ℚ → ℚ → ℚ → ℚ → Except String (List ℚ) := fun _ _ _ _ =>
  Except.ok [10000000]

theorem calculateGreatCircleDistance_pgTenThousandKm (a b c d : ℚ) :
    calculateGreatCircleDistance pgTenThousandKm a b c d =
      Except.ok { distance_km := 10000, distance_miles := 621371 / 100 } := by
  simp only [calculateGreatCircleDistance, pgTenThousandKm,
    Except.ok.injEq, DistanceResult.mk.injEq]
  constructor <;> norm_num [MILES_PER_KM]

theorem calculateDrivingDistance_osrmTimeout (a b c d : ℚ) :
    calculateDrivingDistance osrmTimeout a b c d =
      Except.error "timeout of 5000ms exceeded" := rfl

/-- Claim C3 (counterexample): a driving-route result of exactly 1000 m is
returned as 1.00 km and 0.62 miles — the two fields are rounded to two
decimals independently, so `miles = km * 0.621371` fails exactly
(1 * 0.621371 = 0.621371 ≠ 0.62). -/
theorem claim3_counterexample :
    calculateDistance osrmOneKm pgDown 0 0 1 1 =
      Except.ok { distance_km := 1, distance_miles := 62 / 100 } ∧
    (62 / 100 : ℚ) ≠ 1 * MILES_PER_KM := by
  constructor
  · simp only [calculateDistance, calculateDrivingDistance, osrmOneKm,
      Except.ok.injEq, DistanceResult.mk.injEq]
    constructor <;> norm_num [round2, MILES_PER_KM]
  · norm_num [MILES_PER_KM]

/-- Claim C3 (amended): the exact relation `miles = km * 0.621371` holds for
every result of the great-circle path; a driving-path result instead has
both fields independently rounded to two decimals
(`km = round2 (m / 1000)`, `miles = round2 (m / 1000 * 0.621371)` for the
route length `m` in meters), so the exact relation can fail there by the
rounding. -/
theorem claim3_miles_km_relation :
    (∀ (pg : ℚ → ℚ → ℚ → ℚ → Except String (List ℚ)) (a b c d : ℚ)
        (r : DistanceResult),
        calculateGreatCircleDistance pg a b c d = Except.ok r →
        r.distance_miles = r.distance_km * MILES_PER_KM) ∧
    (∀ (osrm : ℚ → ℚ → ℚ → ℚ → Except String (List ℚ)) (a b c d : ℚ)
        (r : DistanceResult),
        calculateDrivingDistance osrm a b c d = Except.ok r →
        ∃ m : ℚ, r.distance_km = round2 (m / 1000) ∧
          r.distance_miles = round2 (m / 1000 * MILES_PER_KM)) := by
  constructor
  · intro pg a b c d r h
    unfold calculateGreatCircleDistance at h
    split at h
    · exact absurd h (by simp)
    · exact absurd h (by simp)
    · rw [Except.ok.injEq] at h
      subst h
      rfl
  · intro osrm a b c d r h
    unfold calculateDrivingDistance at h
    split at h
    · exact absurd h (by simp)
    · exact absurd h (by simp)
    · rw [Except.ok.injEq] at h
      subst h
      exact ⟨_, rfl, rfl⟩

/-- Witness for C3's amended theorem on the concrete providers. -/
theorem claim3_miles_km_relation_witness :
    DistanceResult.distance_miles
        { distance_km := 10000, distance_miles := 621371 / 100 } =
      DistanceResult.distance_km
          { distance_km := 10000, distance_miles := 621371 / 100 } *
        MILES_PER_KM ∧
    ∃ m : ℚ,
      DistanceResult.distance_km { distance_km := 1, distance_miles := 62 / 100 } =
        round2 (m / 1000) ∧
      DistanceResult.distance_miles
          { distance_km := 1, distance_miles := 62 / 100 } =
        round2 (m / 1000 * MILES_PER_KM) :=
  ⟨claim3_miles_km_relation.1 pgTenThousandKm 0 0 1 1 _
      (calculateGreatCircleDistance_pgTenThousandKm 0 0 1 1),
   claim3_miles_km_relation.2 osrmOneKm 0 0 1 1 _
      (by simp only [calculateDrivingDistance, osrmOneKm, Except.ok.injEq,
            DistanceResult.mk.injEq]
          constructor <;> norm_num [round2, MILES_PER_KM])⟩

/-- Claim C4 (counterexample): the resolver's result carries no `method`
field — a timed-out driving call that falls back to a 10000 km great-circle
measurement returns byte-for-byte the same value as a successful 10000 km
driving route, so a caller cannot distinguish the fallback from the driving
path from the returned result. -/
theorem claim4_counterexample :
    calculateDistance osrmTimeout pgTenThousandKm 0 0 1 1 =
      calculateDistance osrmRouteOk pgDown 0 0 1 1 ∧
    calculateDistance osrmTimeout pgTenThousandKm 0 0 1 1 =
      Except.ok { distance_km := 10000, distance_miles := 621371 / 100 } := by
  have h1 : calculateDistance osrmTimeout pgTenThousandKm 0 0 1 1 =
      Except.ok { distance_km := 10000, distance_miles := 621371 / 100 } := by
    unfold calculateDistance
    rw [calculateDrivingDistance_osrmTimeout]
    exact calculateGreatCircleDistance_pgTenThousandKm 0 0 1 1
  have h2 : calculateDistance osrmRouteOk pgDown 0 0 1 1 =
      Except.ok { distance_km := 10000, distance_miles := 621371 / 100 } := by
    simp only [calculateDistance, calculateDrivingDistance, osrmRouteOk,
      Except.ok.injEq, DistanceResult.mk.injEq]
    constructor <;> norm_num [round2, MILES_PER_KM]
  exact ⟨h1.trans h2.symm, h1⟩

/-- Claim C4 (amended): whenever the driving call fails and the great-circle
computation succeeds, `calculateDistance` returns that great-circle result
as a success, not an error; but the result carries no `method` field, so
the fallback is not observable in the returned value. -/
theorem claim4_fallback_succeeds
    (osrm pg : ℚ → ℚ → ℚ → ℚ → Except String (List ℚ)) (a b c d : ℚ)
    (e : String) (r : DistanceResult)
    (hfail : calculateDrivingDistance osrm a b c d = Except.error e)
    (hok : calculateGreatCircleDistance pg a b c d = Except.ok r) :
    calculateDistance osrm pg a b c d = Except.ok r := by
  unfold calculateDistance
  rw [hfail]
  exact hok

/-- Witness for C4's amended theorem on the concrete timeout scenario. -/
theorem claim4_fallback_succeeds_witness :
    calculateDistance osrmTimeout pgTenThousandKm 2 3 4 5 =
      Except.ok { distance_km := 10000, distance_miles := 621371 / 100 } :=
  claim4_fallback_succeeds osrmTimeout pgTenThousandKm 2 3 4 5
    "timeout of 5000ms exceeded" _
    (calculateDrivingDistance_osrmTimeout 2 3 4 5)
    (calculateGreatCircleDistance_pgTenThousandKm 2 3 4 5)

end QuoteEngine
